import Mathlib

/-!
Verification of the chat-relay server in `src/main.py`: the connection
registry (`connected_clients`), the websocket event loop
(`websocket_endpoint`), the broadcast fan-out (`broadcast_event`) and the
history read endpoint (`get_messages`), shallowly embedded in Lean.

Modelling choices:
* a websocket handle `ws` is a `Nat`;
* the Python dict `connected_clients = {ws: username}` is an association
  list `List (Nat × String)` in insertion order; `connected_clients[ws] = u`
  is `updateClient` (update in place if present, else append, exactly the
  dict semantics) and `connected_clients.pop(ws, None)` is `eraseClient`
  (remove the entry with that key; keys are unique, so a `filter` on the
  key models the single-entry removal);
* `datetime.utcnow()` instants are `Nat` clock values passed in by the
  caller (the code reads the clock twice in the message branch, once for
  the persisted record and once for the broadcast, so the step function
  takes two instants);
* an inbound text frame is modelled by its decode outcome: `Frame.invalid`
  stands for a frame on which `json.loads` (or the subsequent `.get`)
  raises, `Frame.obj ty content txt` for a frame whose text `txt` parses
  as a JSON object with optional string fields `"type"` and `"content"`;
* a fallible collaborator (delivery to a peer, `messages.insert_one`) is
  driven by an explicit failure oracle (`fails : Nat → Bool`,
  `persistOk : Bool`); an uncaught Python exception is `Except.error`.
-/

/-- Record persisted by `messages.insert_one` in the `message` branch of
`websocket_endpoint` (src/main.py lines 293-298): fields `username`,
`message`, `timestamp`. -/
structure ChatRecord where
  username : String
  message : String
  timestamp : Nat
deriving DecidableEq, Repr

/-- Outbound wire frame, one constructor per `event_type` string passed to
`broadcast_event`: `"message"`, `"username_changed"`, `"user_joined"`,
`"user_left"`, `"user_typing"`. -/
inductive BroadcastFrame where
  | message (username : String) (text : String) (timestamp : Nat)
  | usernameChanged (old : String) (new : String)
  | userJoined (username : String) (count : Nat)
  | userLeft (username : String) (count : Nat)
  | userTyping (username : String)
deriving DecidableEq, Repr

/-- Server state shared across connection tasks: the `connected_clients`
dict and the `messages` collection (append-only, `_id` = insertion order). -/
structure ServerState where
  clients : List (Nat × String)
  log : List ChatRecord
deriving DecidableEq, Repr

set_option linter.unusedVariables false

/-- Python `str.strip()` with no argument: drop leading and trailing
whitespace characters. Defined structurally over the character list so
that concrete values reduce inside the kernel. -/
def strip (s : String) : String :=
  String.mk (((s.data.dropWhile Char.isWhitespace).reverse.dropWhile
    Char.isWhitespace).reverse)

/-- Python dict assignment `connected_clients[ws] = u`: replace the value in
place when the key is present (insertion order kept), otherwise append. -/
def updateClient (cs : List (Nat × String)) (ws : Nat) (u : String) :
    List (Nat × String) :=
  if cs.any (fun p => p.1 == ws) then
    cs.map (fun p => if p.1 == ws then (ws, u) else p)
  else
    cs ++ [(ws, u)]

/-- Python `connected_clients.pop(ws, None)`: drop the entry keyed `ws` if
present, no error if absent. Dict keys are unique, so removing every entry
with that key removes at most one. -/
def eraseClient (cs : List (Nat × String)) (ws : Nat) : List (Nat × String) :=
  cs.filter (fun p => p.1 ≠ ws)

/-- Delivery loop of `broadcast_event` (src/main.py lines 316-320): walk the
snapshot of handles, attempt `send_json` on each; a raising send is
swallowed (`except Exception: pass`) and the loop continues. Returns the
handles that received the frame, given the failure oracle `fails`. -/
def deliver (snapshot : List Nat) (fails : Nat → Bool) : List Nat :=
  match snapshot with
  | [] => []
  | h :: t => if fails h then deliver t fails else h :: deliver t fails

/-- Model of `broadcast_event` (src/main.py lines 312-320): take the
point-in-time snapshot `list(connected_clients.keys())`, deliver the frame
to each handle in it, never touching the registry. Returns the delivered
handles together with the (unchanged) registry the caller keeps using.
The frame itself does not influence who receives it, exactly as in the
source, where it is serialised and handed to `send_json` unchanged. -/
def broadcast_event (cs : List (Nat × String)) (fr : BroadcastFrame)
    (fails : Nat → Bool) : List Nat × List (Nat × String) :=
  (deliver (cs.map Prod.fst) fails, cs)

/-- Registry operations performed by `websocket_endpoint`: admission
(lines 257-260) and eviction (lines 307-309), each carrying the display
name used in the resulting frame. -/
inductive RegOp where
  | join (ws : Nat) (u : String)
  | evict (ws : Nat) (u : String)
deriving DecidableEq, Repr

/-- One registry mutation together with the frame the code builds in the
same synchronous step: after `connected_clients[ws] = username` the code
evaluates `len(connected_clients)` with no `await` in between, so mutation
and count form one atomic step (likewise for `pop` and `user_left`). -/
def applyOp (cs : List (Nat × String)) : RegOp → List (Nat × String) × BroadcastFrame
  | .join ws u =>
      let cs2 := updateClient cs ws u
      (cs2, .userJoined u cs2.length)
  | .evict ws u =>
      let cs2 := eraseClient cs ws
      (cs2, .userLeft u cs2.length)

/-- Trace of an arbitrary sequence of admissions/evictions: the registry
after each step paired with the frame emitted by that step. -/
def runOps (cs : List (Nat × String)) : List RegOp → List (List (Nat × String) × BroadcastFrame)
  | [] => []
  | op :: rest =>
      let r := applyOp cs op
      r :: runOps r.1 rest

/-- Count field carried by a join/leave frame, if any. -/
def frameCount : BroadcastFrame → Option Nat
  | .userJoined _ c => some c
  | .userLeft _ c => some c
  | _ => none

/-- Outcome of `jwt.decode(token, ...)` at connection time (src/main.py
lines 248-254): `noToken` when the query parameter is absent, `valid sub`
when decoding succeeds with optional `"sub"` claim, `invalid` when
`JWTError` is raised (malformed, tampered or expired token). -/
inductive TokenResult where
  | noToken
  | valid (sub : Option String)
  | invalid
deriving DecidableEq, Repr

/-- Result of the connection-establishment phase. -/
inductive ConnectResult where
  | rejected (closeCode : Nat)
  | accepted (username : String) (frame : BroadcastFrame) (delivered : List Nat)
deriving DecidableEq, Repr

/-- Connection establishment (src/main.py lines 244-260): a present but
invalid token closes with code 1008 before `accept`, before the registry
insert and before any broadcast; otherwise the session is accepted under
the derived name and `user_joined` is broadcast with the count taken right
after the insert. -/
def connect (st : ServerState) (ws : Nat) (tok : TokenResult)
    (fails : Nat → Bool) : ServerState × ConnectResult :=
  match tok with
  | .invalid => (st, .rejected 1008)
  | .noToken =>
      let r := applyOp st.clients (.join ws "Anonymous")
      let b := broadcast_event r.1 r.2 fails
      ({ st with clients := b.2 }, .accepted "Anonymous" r.2 b.1)
  | .valid sub =>
      let u := sub.getD "Anonymous"
      let r := applyOp st.clients (.join ws u)
      let b := broadcast_event r.1 r.2 fails
      ({ st with clients := b.2 }, .accepted u r.2 b.1)

/-- Disconnect handler (src/main.py lines 307-309): `pop(ws, None)` then an
unconditional `user_left` broadcast carrying the post-eviction count. -/
def disconnect_step (st : ServerState) (ws : Nat) (u : String)
    (fails : Nat → Bool) : ServerState × BroadcastFrame × List Nat :=
  let r := applyOp st.clients (.evict ws u)
  let b := broadcast_event r.1 r.2 fails
  ({ st with clients := b.2 }, r.2, b.1)

/-- Decode outcome of one inbound text frame; `txt` is the raw frame text
(the code checks `data.strip()` on it before decoding). -/
inductive Frame where
  | invalid (txt : String)
  | obj (ty : Option String) (content : Option String) (txt : String)
deriving DecidableEq, Repr

/-- Raw text of the frame, the `data` the loop received. -/
def frameText : Frame → String
  | .invalid t => t
  | .obj _ _ t => t

/-- Parse step (src/main.py lines 269-276): on a JSON object take
`msg_data.get("type", "message")` and `msg_data.get("content", "")`; on
any decode exception fall back to `type = "message"` with the raw text as
content. -/
def decodeFrame : Frame → String × String
  | .invalid t => ("message", t)
  | .obj ty c _ => (ty.getD "message", c.getD "")

/-- One iteration of the receive loop (src/main.py lines 263-305) for the
session `ws` whose current display name is `u`: skip whitespace-only raw
frames, decode, then branch on the type string. `now1` is the clock read
for the persisted record, `now2` the clock read for the broadcast frame;
`persistOk = false` makes `messages.insert_one` raise, which is uncaught
(only `WebSocketDisconnect` is caught) and aborts the dispatch. Returns the
new state, the session's new display name, and the frames broadcast with
their delivered handles. -/
def receive_step (st : ServerState) (ws : Nat) (u : String) (f : Frame)
    (now1 now2 : Nat) (persistOk : Bool) (fails : Nat → Bool) :
    Except Unit (ServerState × String × List (BroadcastFrame × List Nat)) :=
  if strip (frameText f) = "" then .ok (st, u, [])
  else
    let p := decodeFrame f
    if p.1 = "set_username" then
      let newName := if strip p.2 = "" then "Anonymous" else strip p.2
      let cs := updateClient st.clients ws newName
      let b := broadcast_event cs (.usernameChanged u newName) fails
      .ok ({ st with clients := b.2 }, newName, [(.usernameChanged u newName, b.1)])
    else if p.1 = "typing" then
      let b := broadcast_event st.clients (.userTyping u) fails
      .ok ({ st with clients := b.2 }, u, [(.userTyping u, b.1)])
    else if p.1 = "message" then
      if persistOk then
        let st1 := { st with log := st.log ++ [(⟨u, p.2, now1⟩ : ChatRecord)] }
        let b := broadcast_event st1.clients (.message u p.2 now2) fails
        .ok ({ st1 with clients := b.2 }, u, [(.message u p.2 now2, b.1)])
      else
        .error ()
    else
      .ok (st, u, [])

/-- History endpoint `get_messages` (src/main.py lines 231-240): sort by
`_id` descending (= reverse insertion order), take `limit`, then read the
documents back in reversed (oldest-first) order projecting only
`username` and `message` (as `text`). -/
structure HistoryEntry where
  username : String
  text : String
deriving DecidableEq, Repr

/-- Body of `get_messages`. -/
def get_messages (log : List ChatRecord) (limit : Nat := 50) : List HistoryEntry :=
  ((log.reverse.take limit).reverse).map (fun d => (⟨d.username, d.message⟩ : HistoryEntry))

/-! ## Helper lemmas -/

/-- Delivery to a non-failing handle in the snapshot always succeeds, no
matter which other handles fail. -/
theorem mem_deliver {fails : Nat → Bool} {a : Nat} {l : List Nat}
    (ha : a ∈ l) (hf : fails a = false) : a ∈ deliver l fails := by
  induction l with
  | nil => cases ha
  | cons h t ih =>
      rw [deliver]
      rcases List.mem_cons.mp ha with rfl | hmem
      · simp [hf]
      · by_cases hh : fails h
        · simpa [hh] using ih hmem
        · simp [hh, ih hmem]

/-- After a dict assignment the key is present. -/
theorem mem_keys_updateClient (cs : List (Nat × String)) (ws : Nat) (u : String) :
    ws ∈ (updateClient cs ws u).map Prod.fst := by
  rw [updateClient]
  by_cases h : cs.any (fun p => p.1 == ws)
  · simp only [h, if_true]
    rcases List.any_eq_true.mp h with ⟨p, hp, hpe⟩
    have hmem : (ws, u) ∈ cs.map (fun p => if p.1 == ws then (ws, u) else p) :=
      List.mem_map.mpr ⟨p, hp, by simp [hpe]⟩
    exact List.mem_map.mpr ⟨(ws, u), hmem, rfl⟩
  · simp [h]

/-- Removing a key twice from the registry is the same as removing it once. -/
theorem eraseClient_idem (cs : List (Nat × String)) (ws : Nat) :
    eraseClient (eraseClient cs ws) ws = eraseClient cs ws := by
  simp [eraseClient, List.filter_filter]

/-! ## Claims -/

/-- C1 is refuted on the code: dispatching the JSON frame
`{"type":"message","content":""}` is NOT ignored — the emptiness check at
src/main.py line 265 looks only at the raw frame text, which here is the
(non-blank) JSON source, so the empty content is persisted as a ChatRecord
and a Message frame is broadcast. -/
theorem empty_json_message_is_persisted_and_broadcast :
    receive_step ⟨[(0, "Anonymous")], []⟩ 0 "Anonymous"
        (.obj (some "message") (some "")
          "\x7b\"type\":\"message\",\"content\":\"\"\x7d") 1 2 true (fun _ => false) =
      .ok (⟨[(0, "Anonymous")], [⟨"Anonymous", "", 1⟩]⟩, "Anonymous",
           [(.message "Anonymous" "" 2, [0])]) := rfl

/-- C1 (amended): only a frame whose RAW text is empty or whitespace-only
after trimming is ignored entirely — no outbound frame, no new display
name, no persisted record; a JSON-encoded empty content passes the check
and is persisted and broadcast (see the counterexample). -/
theorem whitespace_frame_is_noop (st : ServerState) (ws : Nat) (u : String)
    (f : Frame) (now1 now2 : Nat) (persistOk : Bool) (fails : Nat → Bool)
    (h : strip (frameText f) = "") :
    receive_step st ws u f now1 now2 persistOk fails = .ok (st, u, []) := by
  rw [receive_step, if_pos h]

/-- C1 witness: a raw three-space frame is dropped with no effect. -/
theorem whitespace_frame_is_noop_witness :
    receive_step ⟨[(0, "Anonymous")], []⟩ 0 "Anonymous" (.invalid "   ") 1 2 true
        (fun _ => false) = .ok (⟨[(0, "Anonymous")], []⟩, "Anonymous", []) :=
  whitespace_frame_is_noop _ _ _ _ _ _ _ _ (by decide)

/-- C2: a present token that fails `jwt.decode` closes the connection with
code 1008 before `accept`, leaving the registry exactly as it was; the
result is `rejected`, so no `UserJoined` frame exists for the connection
and nothing was delivered to anyone. -/
theorem invalid_token_rejected_before_admission (st : ServerState) (ws : Nat)
    (fails : Nat → Bool) :
    connect st ws .invalid fails = (st, .rejected 1008) := rfl

/-- C5 is refuted on the code: with a failing `messages.insert_one` the
dispatch of a non-empty chat message raises out of the loop (only
`WebSocketDisconnect` is caught) and NO Message frame is fanned out to the
two registered sessions, contrary to the claimed best-effort persistence. -/
theorem persist_failure_aborts_broadcast :
    receive_step ⟨[(0, "A"), (1, "B")], []⟩ 0 "A"
        (.obj (some "message") (some "hi")
          "\x7b\"type\":\"message\",\"content\":\"hi\"\x7d") 1 2 false
        (fun _ => false) = .error () := rfl

/-- C5 (amended): a persistence failure during a non-empty ChatMessage
dispatch propagates as an uncaught exception: the dispatch ends in an
error state and no Message frame is broadcast to anyone; the broadcast
happens only after a successful append. -/
theorem persist_failure_propagates (st : ServerState) (ws : Nat)
    (u content txt : String) (now1 now2 : Nat) (fails : Nat → Bool)
    (h : strip txt ≠ "") :
    receive_step st ws u (.obj (some "message") (some content) txt) now1 now2
      false fails = .error () := by
  simp [receive_step, frameText, decodeFrame, h]

/-- C5 witness for the amended statement at a concrete input. -/
theorem persist_failure_propagates_witness :
    receive_step ⟨[(0, "A")], []⟩ 0 "A"
        (.obj (some "message") (some "hi")
          "\x7b\"type\":\"message\",\"content\":\"hi\"\x7d") 1 2 false
        (fun _ => false) = .error () :=
  persist_failure_propagates _ _ _ _ _ _ _ _ (by decide)

/-- C6: fan-out reads a point-in-time snapshot of the handles
(`list(connected_clients.keys())`), never mutates the registry, and a
delivery failure on one handle is swallowed, so every non-failing handle
of the snapshot still receives the frame. -/
theorem broadcast_snapshot_isolated (cs : List (Nat × String))
    (fr : BroadcastFrame) (fails : Nat → Bool) :
    (broadcast_event cs fr fails).2 = cs ∧
    ∀ h, h ∈ cs.map Prod.fst → fails h = false →
      h ∈ (broadcast_event cs fr fails).1 := by
  refine ⟨rfl, fun h hmem hf => ?_⟩
  exact mem_deliver hmem hf

/-- C6 witness: handle 1 fails, yet handle 2 (later in the snapshot) still
receives the frame and the registry keeps all three sessions. -/
theorem broadcast_snapshot_isolated_witness :
    2 ∈ (broadcast_event [(0, "A"), (1, "B"), (2, "C")] (.userTyping "A")
          (fun n => n == 1)).1 :=
  (broadcast_snapshot_isolated _ _ _).2 2 (by decide) (by decide)

/-- C8: a non-blank frame on which JSON decoding raises is dispatched as a
chat message whose content is the raw frame text: it is persisted, a
Message frame with the raw text is broadcast, and the dispatch ends in a
normal (non-error) state, so nothing is surfaced to the sender. -/
theorem invalid_json_treated_as_message (st : ServerState) (ws : Nat)
    (u t : String) (now1 now2 : Nat) (fails : Nat → Bool) (ht : strip t ≠ "") :
    receive_step st ws u (.invalid t) now1 now2 true fails =
      .ok ({ st with log := st.log ++ [⟨u, t, now1⟩] }, u,
           [(.message u t now2, deliver (st.clients.map Prod.fst) fails)]) := by
  simp [receive_step, frameText, decodeFrame, ht, broadcast_event]

/-- C8 witness: the malformed frame `hello` becomes a chat message. -/
theorem invalid_json_treated_as_message_witness :
    receive_step ⟨[(0, "A")], []⟩ 0 "A" (.invalid "hello") 1 2 true
        (fun _ => false) =
      .ok (⟨[(0, "A")], [⟨"A", "hello", 1⟩]⟩, "A",
           [(.message "A" "hello" 2, [0])]) :=
  invalid_json_treated_as_message _ _ _ _ _ _ _ (by decide)

/-- C10: a well-formed JSON frame whose type string is none of `message`,
`set_username`, `typing` falls through every branch of the dispatch: no
frame is broadcast, nothing is persisted, and the display name and the
registry are unchanged. -/
theorem unknown_type_is_noop (st : ServerState) (ws : Nat) (u t : String)
    (c : Option String) (txt : String) (now1 now2 : Nat) (persistOk : Bool)
    (fails : Nat → Bool) (htxt : strip txt ≠ "") (h1 : t ≠ "message")
    (h2 : t ≠ "set_username") (h3 : t ≠ "typing") :
    receive_step st ws u (.obj (some t) c txt) now1 now2 persistOk fails =
      .ok (st, u, []) := by
  simp [receive_step, frameText, decodeFrame, htxt, h1, h2, h3]

/-- C10 witness: a frame of type `foo` has no effect. -/
theorem unknown_type_is_noop_witness :
    receive_step ⟨[(0, "A")], []⟩ 0 "A"
        (.obj (some "foo") (some "x")
          "\x7b\"type\":\"foo\",\"content\":\"x\"\x7d") 1 2 true
        (fun _ => false) = .ok (⟨[(0, "A")], []⟩, "A", []) :=
  unknown_type_is_noop _ _ _ _ _ _ _ _ _ _ (by decide) (by decide) (by decide)
    (by decide)

/-- C3: along any sequence of admissions and evictions, each emitted
`UserJoined`/`UserLeft` frame carries exactly the registry size right
after its own mutation (the count is computed in the same step as the
mutation, so no interleaved operation can slip in between); the same holds
for the frame produced by connection establishment and by the disconnect
handler. -/
theorem frame_count_matches_registry :
    (∀ (cs : List (Nat × String)) (ops : List RegOp)
        (p : List (Nat × String) × BroadcastFrame), p ∈ runOps cs ops →
        frameCount p.2 = some p.1.length) ∧
    (∀ (st : ServerState) (ws : Nat) (tok : TokenResult) (fails : Nat → Bool)
        (st2 : ServerState) (u : String) (fr : BroadcastFrame) (d : List Nat),
        connect st ws tok fails = (st2, .accepted u fr d) →
        frameCount fr = some st2.clients.length) ∧
    (∀ (st : ServerState) (ws : Nat) (u : String) (fails : Nat → Bool),
        frameCount (disconnect_step st ws u fails).2.1 =
          some (disconnect_step st ws u fails).1.clients.length) := by
  refine ⟨?_, ?_, ?_⟩
  · intro cs ops
    induction ops generalizing cs with
    | nil => intro p hp; simp [runOps] at hp
    | cons op rest ih =>
        intro p hp
        rw [runOps] at hp
        rcases List.mem_cons.mp hp with rfl | hmem
        · cases op <;> simp [applyOp, frameCount]
        · exact ih _ _ hmem
  · intro st ws tok fails st2 u fr d h
    cases tok with
    | invalid => simp [connect] at h
    | noToken =>
        simp only [connect, applyOp, broadcast_event, Prod.mk.injEq,
          ConnectResult.accepted.injEq] at h
        obtain ⟨hst, hu, hfr, hd⟩ := h
        subst hst
        subst hfr
        simp [frameCount]
    | valid sub =>
        simp only [connect, applyOp, broadcast_event, Prod.mk.injEq,
          ConnectResult.accepted.injEq] at h
        obtain ⟨hst, hu, hfr, hd⟩ := h
        subst hst
        subst hfr
        simp [frameCount]
  · intro st ws u fails
    simp [disconnect_step, applyOp, broadcast_event, frameCount]

/-- C3 witness: joining handles 0 and 1 and evicting 0 produces a
`UserLeft` frame whose count 1 equals the size of the remaining registry. -/
theorem frame_count_matches_registry_witness :
    frameCount (BroadcastFrame.userLeft "A" 1) =
      some ([(1, "B")] : List (Nat × String)).length :=
  frame_count_matches_registry.1 [] [.join 0 "A", .join 1 "B", .evict 0 "A"]
    ([(1, "B")], .userLeft "A" 1) (by decide)

/-- C4 is refuted on the code: `get_messages` projects each stored document
to username and text only, so the persisted timestamp is not returned —
two logs that differ only in the timestamp of their single record read
back identically. -/
theorem history_drops_timestamp :
    get_messages [⟨"alice", "hi", 1⟩] 50 = get_messages [⟨"alice", "hi", 2⟩] 50 ∧
    get_messages [⟨"alice", "hi", 1⟩] 50 = [⟨"alice", "hi"⟩] := ⟨rfl, rfl⟩

/-- C4 (amended): the history endpoint returns the most recent `n` records
(caller-supplied, default 50) oldest-first, each preserving username and
text exactly as written; the timestamp is persisted but not included in
the response. In particular a just-persisted record reads back as the last
entry. -/
theorem history_last_n_oldest_first (log : List ChatRecord) (n : Nat)
    (h : 0 < n) :
    get_messages log n = (log.drop (log.length - n)).map
      (fun d => (⟨d.username, d.message⟩ : HistoryEntry)) ∧
    ∀ r : ChatRecord, (get_messages (log ++ [r]) n).getLast? =
      some ⟨r.username, r.message⟩ := by
  have key : ∀ l : List ChatRecord, get_messages l n =
      (l.drop (l.length - n)).map
        (fun d => (⟨d.username, d.message⟩ : HistoryEntry)) := by
    intro l
    rw [get_messages, ← List.rtake_eq_reverse_take_reverse, List.rtake]
  refine ⟨key log, fun r => ?_⟩
  rw [key]
  have hk : (log ++ [r]).length - n ≤ log.length := by
    simp only [List.length_append, List.length_singleton]
    omega
  rw [List.drop_append_of_le_length hk, List.map_append]
  simp

/-- C4 witness: with two persisted records and `n = 1`, the most recently
persisted record reads back (sans timestamp) as the last entry. -/
theorem history_last_n_oldest_first_witness :
    (get_messages ([⟨"a", "x", 1⟩] ++ [⟨"b", "y", 2⟩]) 1).getLast? =
      some ⟨"b", "y"⟩ :=
  (history_last_n_oldest_first [⟨"a", "x", 1⟩] 1 (by decide)).2 ⟨"b", "y", 2⟩

/-- C7: a `set_username` dispatch strips the supplied name (substituting
"Anonymous" when the result is empty), updates the registry entry of the
session to that name, broadcasts `UsernameChanged{old, new}` — `old` being
the pre-dispatch name — over the post-rename snapshot, which always
contains the sender, and leaves the message log untouched. -/
theorem set_username_updates_and_broadcasts (st : ServerState) (ws : Nat)
    (u name txt : String) (now1 now2 : Nat) (persistOk : Bool)
    (fails : Nat → Bool) (htxt : strip txt ≠ "") :
    receive_step st ws u (.obj (some "set_username") (some name) txt) now1 now2
        persistOk fails =
      .ok ({ st with
              clients := updateClient st.clients ws
                (if strip name = "" then "Anonymous" else strip name) },
           (if strip name = "" then "Anonymous" else strip name),
           [(.usernameChanged u
               (if strip name = "" then "Anonymous" else strip name),
             deliver ((updateClient st.clients ws
               (if strip name = "" then "Anonymous" else strip name)).map
                 Prod.fst) fails)]) ∧
    ws ∈ (updateClient st.clients ws
            (if strip name = "" then "Anonymous" else strip name)).map
          Prod.fst := by
  refine ⟨?_, mem_keys_updateClient _ _ _⟩
  simp [receive_step, frameText, decodeFrame, htxt, broadcast_event]

/-- C7 witness: `set_username` with `"  Bob  "` yields display name `Bob`,
and with `""` yields `Anonymous`; both update the registry and broadcast
to the sender with nothing persisted. -/
theorem set_username_updates_and_broadcasts_witness :
    receive_step ⟨[(0, "A")], []⟩ 0 "A"
        (.obj (some "set_username") (some "  Bob  ")
          "\x7b\"type\":\"set_username\",\"content\":\"  Bob  \"\x7d") 1 2 true
        (fun _ => false) =
      .ok (⟨[(0, "Bob")], []⟩, "Bob", [(.usernameChanged "A" "Bob", [0])]) ∧
    receive_step ⟨[(0, "A")], []⟩ 0 "A"
        (.obj (some "set_username") (some "")
          "\x7b\"type\":\"set_username\",\"content\":\"\"\x7d") 1 2 true
        (fun _ => false) =
      .ok (⟨[(0, "Anonymous")], []⟩, "Anonymous",
           [(.usernameChanged "A" "Anonymous", [0])]) :=
  ⟨(set_username_updates_and_broadcasts ⟨[(0, "A")], []⟩ 0 "A" "  Bob  "
      "\x7b\"type\":\"set_username\",\"content\":\"  Bob  \"\x7d" 1 2 true
      (fun _ => false) (by decide)).1,
   (set_username_updates_and_broadcasts ⟨[(0, "A")], []⟩ 0 "A" ""
      "\x7b\"type\":\"set_username\",\"content\":\"\"\x7d" 1 2 true
      (fun _ => false) (by decide)).1⟩

/-- C9 is partially refuted on the code: the disconnect handler pops the
session and then unconditionally broadcasts `UserLeft`, so a second run of
the eviction path for the same (already absent) id emits a second,
identical `UserLeft` frame — here both the first and the second run emit
`UserLeft{"A", 0}`. -/
theorem second_evict_emits_user_left :
    ((disconnect_step ⟨[(0, "A")], []⟩ 0 "A" (fun _ => false)).2.1 =
       .userLeft "A" 0) ∧
    ((disconnect_step (disconnect_step ⟨[(0, "A")], []⟩ 0 "A"
          (fun _ => false)).1 0 "A" (fun _ => false)).2.1 =
       .userLeft "A" 0) := ⟨rfl, rfl⟩

/-- C9 (amended): eviction is idempotent on the registry — evicting twice
leaves the registry exactly as evicting once, and evicting an id that is
not registered is a no-op on the registry and raises no error (the
operation is total) — but each run of the disconnect handler also emits a
`UserLeft` frame, so a second run would emit a duplicate frame; in the
program the handler runs at most once per connection. -/
theorem evict_idempotent_on_registry :
    (∀ (st : ServerState) (ws : Nat) (u : String) (fails : Nat → Bool),
        (disconnect_step (disconnect_step st ws u fails).1 ws u fails).1 =
          (disconnect_step st ws u fails).1) ∧
    (∀ (cs : List (Nat × String)) (ws : Nat), ws ∉ cs.map Prod.fst →
        eraseClient cs ws = cs) := by
  constructor
  · intro st ws u fails
    simp [disconnect_step, applyOp, broadcast_event, eraseClient_idem]
  · intro cs ws h
    unfold eraseClient
    refine List.filter_eq_self.mpr fun p hp => ?_
    have hne : p.1 ≠ ws := fun he => h (List.mem_map.mpr ⟨p, hp, he⟩)
    simpa using hne

/-- C9 witness for the amended statement: evicting the absent id 0 leaves
the registry holding session 1 untouched. -/
theorem evict_idempotent_on_registry_witness :
    eraseClient [(1, "B")] 0 = [(1, "B")] :=
  evict_idempotent_on_registry.2 [(1, "B")] 0 (by decide)
